import Mathlib

/-!
# Verification of the JPX400 fair-value batch job (`src/market_analysis.py`)

Shallow embedding of the valuation pipeline:

* `Fundamentals` models the quote-provider `info` dictionary (each field is the
  optional numeric value behind the corresponding key; a numeric value is
  modelled as a rational).
* `resolve_eps` / `resolve_bps` model the fallback chains of
  `analyze_stock` (lines 79-106).
* `analyze_info` models the body of `analyze_stock` after the fetch loop
  (lines 74-138), including the `try/except` that turns a Python
  `ZeroDivisionError` at the `upside` computation into a generic error
  result.
* `fetch_info` / `analyze_stock` model the two-attempt fetch loop
  (lines 60-72), with the per-attempt behaviour of the upstream provider
  supplied as data (`Attempt`).
* `fetch_target_list` models the universe listing logic (lines 141-177),
  with the parsed tables supplied as data.
* `main_run` models the `__main__` driver (lines 265-306).
* `sorted_data` models `sorted(success_results, key=lambda x: x['diff'],
  reverse=True)` (line 303): Python's sort is stable, and a stable
  descending sort coincides with insertion sort by the non-strict
  relation `b.diff ≤ a.diff`.
* `modelA` is modelled from the spec (Model A is absent from
  `src/market_analysis.py`).

The square root is exact (`Real.sqrt`); Python float rounding is out of
scope of this embedding.
-/

/-- The fields of the quote-provider response that `analyze_stock` reads.
`none` models both an absent key and a `None` value. -/
structure Fundamentals where
  currentPrice : Option ℚ
  forwardEps : Option ℚ
  trailingEps : Option ℚ
  trailingPE : Option ℚ
  bookValue : Option ℚ
  priceToBook : Option ℚ
  earningsGrowth : Option ℚ
  revenueGrowth : Option ℚ
  dividendYield : Option ℚ

/-- Build a `Fundamentals` record; arguments in field order. -/
def mkFund (currentPrice forwardEps trailingEps trailingPE bookValue
    priceToBook earningsGrowth revenueGrowth dividendYield : Option ℚ) :
    Fundamentals :=
  ⟨currentPrice, forwardEps, trailingEps, trailingPE, bookValue,
   priceToBook, earningsGrowth, revenueGrowth, dividendYield⟩

/-- The distinct `reason` values produced by `analyze_stock`:
`fetchFailed` is `'Fetch Failed'`, `noPrice` is `'No Price'`,
`redInk` is `'Red Ink (EPS <= 0)'`, `deficit` is `'Deficit (BPS <= 0)'`,
`mathDomain` is `'Math Domain Error'`, `tooHigh u` is
`f'Too High (>300%): {u:.0f}%'` (carrying the offending upside), and
`unknown d` is the `str(e)` of a caught unexpected exception. -/
inductive Reason where
  | fetchFailed : Reason
  | noPrice : Reason
  | redInk : Reason
  | deficit : Reason
  | mathDomain : Reason
  | tooHigh : ℝ → Reason
  | unknown : String → Reason

/-- The success dictionary returned by `analyze_stock` (lines 126-135):
keys `id`, `label`, `val` (price), `target` (fair value), `diff` (upside %),
`eps`, `bps`. -/
structure SuccessRec where
  id : String
  label : String
  val : ℚ
  target : ℝ
  diff : ℝ
  eps : ℚ
  bps : ℚ

/-- The tagged result of `analyze_stock`: a `status == 'success'` dictionary
or a `status == 'error'` dictionary with a `code` and a `reason`. -/
inductive AnalyzeResult where
  | success : SuccessRec → AnalyzeResult
  | error : String → Reason → AnalyzeResult

/-- EPS fallback chain of `analyze_stock` (lines 79-89): `forwardEps`,
else `trailingEps`, else `price / trailingPE` when `trailingPE` is present
and positive (`if pe and pe > 0`). -/
def resolve_eps (info : Fundamentals) (price : ℚ) : Option ℚ :=
  match info.forwardEps with
  | some e => some e
  | none =>
    match info.trailingEps with
    | some e => some e
    | none =>
      match info.trailingPE with
      | some pe => if 0 < pe then some (price / pe) else none
      | none => none

/-- BPS fallback chain of `analyze_stock` (lines 95-102): `bookValue`,
else `price / priceToBook` when `priceToBook` is present and positive. -/
def resolve_bps (info : Fundamentals) (price : ℚ) : Option ℚ :=
  match info.bookValue with
  | some b => some b
  | none =>
    match info.priceToBook with
    | some pbr => if 0 < pbr then some (price / pbr) else none
    | none => none

/-- The body of `analyze_stock` after the fetch loop (lines 74-138).

* missing price (line 76) gives `'No Price'`;
* `eps is None or eps <= 0` (line 92) gives the single merged reason
  `'Red Ink (EPS <= 0)'`;
* `bps is None or bps <= 0` (line 105) gives the single merged reason
  `'Deficit (BPS <= 0)'`;
* a negative radicand would raise `ValueError` in `math.sqrt`, caught as
  `'Math Domain Error'` (lines 111-114);
* `price == 0` makes the `upside` line raise `ZeroDivisionError`, caught
  by the outer `except` (lines 137-138) and stringified;
* `upside > 300` gives the `'Too High'` rejection (lines 123-124);
* otherwise the success dictionary (lines 126-135). -/
noncomputable def analyze_info (code jp_name : String) (info : Fundamentals) :
    AnalyzeResult :=
  match info.currentPrice with
  | none => .error code .noPrice
  | some price =>
    match resolve_eps info price with
    | none => .error code .redInk
    | some eps =>
      if eps ≤ 0 then .error code .redInk
      else
        match resolve_bps info price with
        | none => .error code .deficit
        | some bps =>
          if bps ≤ 0 then .error code .deficit
          else if (22.5 : ℚ) * eps * bps < 0 then .error code .mathDomain
          else if price = 0 then
            .error code (.unknown "float division by zero")
          else
            if 300 < ((Real.sqrt (((22.5 : ℚ) * eps * bps : ℚ) : ℝ) -
                (price : ℝ)) / (price : ℝ)) * 100 then
              .error code (.tooHigh
                ((Real.sqrt (((22.5 : ℚ) * eps * bps : ℚ) : ℝ) -
                  (price : ℝ)) / (price : ℝ) * 100))
            else
              .success ⟨code, jp_name, price,
                Real.sqrt (((22.5 : ℚ) * eps * bps : ℚ) : ℝ),
                ((Real.sqrt (((22.5 : ℚ) * eps * bps : ℚ) : ℝ) -
                  (price : ℝ)) / (price : ℝ)) * 100, eps, bps⟩

/-- One iteration of the fetch loop (lines 61-69): the upstream either
raises (`exn`, the `except` branch) or returns a value for `stock.info`
(`got`, where `none` models Python `None`). -/
inductive Attempt where
  | exn : Attempt
  | got : Option Fundamentals → Attempt

/-- The fetch loop (lines 60-69): `info` starts as `None`; each attempt
overwrites it with the returned value unless the attempt raised; the loop
breaks as soon as the returned dictionary has a `currentPrice` key
(`if info and 'currentPrice' in info: break`). -/
def fetch_info : List Attempt → Option Fundamentals → Option Fundamentals
  | [], st => st
  | .exn :: rest, st => fetch_info rest st
  | .got none :: rest, _ => fetch_info rest none
  | .got (some d) :: rest, _ =>
    if d.currentPrice.isSome then some d else fetch_info rest (some d)

/-- `analyze_stock` (lines 54-138) for one issue, with the behaviour of the
two upstream attempts (`for i in range(2)`) supplied as data: run the fetch
loop, return `'Fetch Failed'` if `info is None` afterwards, otherwise
analyze the fetched dictionary. -/
noncomputable def analyze_stock (code jp_name : String) (a1 a2 : Attempt) :
    AnalyzeResult :=
  match fetch_info [a1, a2] none with
  | none => .error code .fetchFailed
  | some info => analyze_info code jp_name info

/-- `status == 'success'` test used by the result-collection loop
(line 281). -/
def is_success : AnalyzeResult → Bool
  | .success _ => true
  | .error _ _ => false

/-- The result-collection loop (lines 279-284), success half: the
`success_results` list in input order. -/
def collect_success : List AnalyzeResult → List SuccessRec
  | [] => []
  | .success s :: rest => s :: collect_success rest
  | .error _ _ :: rest => collect_success rest

/-- The result-collection loop (lines 279-284), error half: the
`error_log` list in input order. -/
def collect_errors : List AnalyzeResult → List (String × Reason)
  | [] => []
  | .success _ :: rest => collect_errors rest
  | .error c r :: rest => (c, r) :: collect_errors rest

/-- `executor.map(analyze_stock, target_list)` (line 277): one result per
issue, in universe order; the per-issue upstream behaviour is supplied by
`oracle`. -/
noncomputable def run_pipeline (oracle : String × String → Attempt × Attempt)
    (target_list : List (String × String)) : List AnalyzeResult :=
  target_list.map (fun t => analyze_stock t.1 t.2 (oracle t).1 (oracle t).2)

/-- The cause classes of the error reasons (the `RejectionKind` taxonomy of
the spec, restricted to the causes the code distinguishes). -/
inductive RKind where
  | fetchFailed : RKind
  | noPrice : RKind
  | redInk : RKind
  | deficit : RKind
  | mathDomain : RKind
  | tooHigh : RKind
  | unknown : RKind
deriving DecidableEq

/-- The cause class of a reason. -/
def reason_kind : Reason → RKind
  | .fetchFailed => .fetchFailed
  | .noPrice => .noPrice
  | .redInk => .redInk
  | .deficit => .deficit
  | .mathDomain => .mathDomain
  | .tooHigh _ => .tooHigh
  | .unknown _ => .unknown

/-- All cause classes, each exactly once. -/
def all_kinds : List RKind :=
  [.fetchFailed, .noPrice, .redInk, .deficit, .mathDomain, .tooHigh,
   .unknown]

/-- Count of the error-log entries of one cause class (one cell of the
run tally). -/
def tally (errs : List (String × Reason)) (k : RKind) : ℕ :=
  errs.countP (fun e => reason_kind e.2 = k)

/-- Descending-upside order used by the ranking step: `a` may come before
`b` iff `b.diff ≤ a.diff`. -/
def rank_rel (a b : SuccessRec) : Prop := b.diff ≤ a.diff

noncomputable instance : DecidableRel rank_rel :=
  fun a b => inferInstanceAs (Decidable (b.diff ≤ a.diff))

instance : IsTotal SuccessRec rank_rel :=
  ⟨fun a b => (le_total b.diff a.diff).elim Or.inl Or.inr⟩

instance : IsTrans SuccessRec rank_rel :=
  ⟨fun _ _ _ h1 h2 => le_trans h2 h1⟩

/-- `sorted(success_results, key=lambda x: x['diff'], reverse=True)`
(line 303). Python's sort is stable; a stable descending sort coincides
with insertion sort by the non-strict relation `rank_rel`. -/
noncomputable def sorted_data (l : List SuccessRec) : List SuccessRec :=
  List.insertionSort rank_rel l

/-- One parsed table of the listing page, reduced to what
`fetch_target_list` reads: the column labels, and the stripped string
values of the code and name columns row by row. -/
structure Table where
  columns : List String
  codes : List String
  names : List String

/-- Outcome of `fetch_target_list`: `fatal` models `sys.exit(1)`, `ok`
models returning the cleaned list. -/
inductive FetchOutcome where
  | fatal : FetchOutcome
  | ok : List (String × String) → FetchOutcome
deriving DecidableEq

/-- Row filter of `fetch_target_list` (line 167):
`c.isdigit() and len(c) == 4` — every character of the code is a digit and
the code is 4 characters long (the digit test is phrased over the string's
character list). -/
def keep_row (c : String) : Bool :=
  c.data.all Char.isDigit && c.length = 4

/-- `fetch_target_list` (lines 141-177) given the parsed tables: exit
non-zero if no table was found or the expected columns are absent;
otherwise return the rows of the first table that pass `keep_row` —
even when no row passes. -/
def fetch_target_list (dfs : List Table) : FetchOutcome :=
  match dfs with
  | [] => .fatal
  | df :: _ =>
    if "銘柄コード" ∈ df.columns ∧ "銘柄名" ∈ df.columns then
      .ok (((df.codes.zip df.names).filter fun cn => keep_row cn.1))
    else .fatal

/-- Terminal outcome of the `__main__` driver (lines 265-306):
`fatalUniverse` is a `sys.exit(1)` inside `fetch_target_list`;
`noData` is the `sys.exit(0)` at line 300 (no sort, no report, no
publish); `publish ranked` means the run sorted the successes and handed
the rendered report to the remote sink. -/
inductive MainOutcome where
  | fatalUniverse : MainOutcome
  | noData : MainOutcome
  | publish : List SuccessRec → MainOutcome

/-- The `__main__` driver (lines 265-306) after the calendar gate, given
the parsed listing tables and the upstream oracle. -/
noncomputable def main_run (dfs : List Table)
    (oracle : String × String → Attempt × Attempt) : MainOutcome :=
  match fetch_target_list dfs with
  | .fatal => .fatalUniverse
  | .ok target_list =>
    let successes := collect_success (run_pipeline oracle target_list)
    if successes.isEmpty then .noData
    else .publish (sorted_data successes)

/-- The spec's `RejectionKind` taxonomy (§3). -/
inductive RejectionKind where
  | FetchFailed : RejectionKind
  | MissingPrice : RejectionKind
  | MissingEarnings : RejectionKind
  | NegativeOrZeroEarnings : RejectionKind
  | MissingBookValue : RejectionKind
  | NonPositiveBookValue : RejectionKind
  | MathDomainError : RejectionKind
  | BelowMultiplierFloor : RejectionKind
  | UpsideOutOfRange : RejectionKind
  | Unknown : String → RejectionKind
deriving DecidableEq

/-- The fair-value estimate produced by Model A, with its intermediate
model inputs. -/
structure ModelAEstimate where
  eps : ℚ
  cappedGrowthPct : ℚ
  yieldPct : ℚ
  multiplier : ℚ
  fairValue : ℚ
  upsidePct : ℚ
deriving DecidableEq

/-- Modelled from the spec: Model A (Growth-and-Yield, linear) of §4.2 is
absent from `src/market_analysis.py` (the file implements only Model B,
the Graham number); this definition follows the spec's steps 1-7 word by
word. `growth_default` is the configurable growth default (0.0 in late
revisions) and `growth_cap` the configurable growth ceiling in percentage
points (default 25). EPS: `forwardEps` else `trailingEps` else reject
`MissingEarnings`; reject `NegativeOrZeroEarnings` if EPS ≤ 0. Growth:
`earningsGrowth` else `revenueGrowth` else the default; yield:
`dividendYield` else 0. Both are converted to percentage points; growth is
capped at the ceiling and floored at 0. `multiplier` is their sum; reject
`BelowMultiplierFloor` if it is < 1. `fairValue = eps * multiplier`,
rejected if ≤ 0 (the spec names no kind for this unreachable defensive
check; `MathDomainError` is used). `upsidePct` as in Model B, rejected as
`UpsideOutOfRange` above 1000. -/
def modelA (growth_default growth_cap : ℚ) (info : Fundamentals) :
    Except RejectionKind ModelAEstimate :=
  match info.currentPrice with
  | none => .error .MissingPrice
  | some price =>
    match (match info.forwardEps with
           | some e => some e
           | none => info.trailingEps) with
    | none => .error .MissingEarnings
    | some eps =>
      if eps ≤ 0 then .error .NegativeOrZeroEarnings
      else
        let growth :=
          match info.earningsGrowth with
          | some g => g
          | none =>
            match info.revenueGrowth with
            | some g => g
            | none => growth_default
        let yld :=
          match info.dividendYield with
          | some y => y
          | none => 0
        let cappedGrowthPct := max 0 (min (growth * 100) growth_cap)
        let yieldPct := yld * 100
        let multiplier := cappedGrowthPct + yieldPct
        if multiplier < 1 then .error .BelowMultiplierFloor
        else
          let fairValue := eps * multiplier
          if fairValue ≤ 0 then .error .MathDomainError
          else
            let upsidePct := (fairValue - price) / price * 100
            if 1000 < upsidePct then .error .UpsideOutOfRange
            else .ok ⟨eps, cappedGrowthPct, yieldPct, multiplier,
                      fairValue, upsidePct⟩

/-- Every outcome of `analyze_info` is a tagged success for this issue or a
tagged error for this issue. -/
lemma analyze_info_shape (code jp_name : String) (info : Fundamentals) :
    (∃ s, analyze_info code jp_name info = .success s ∧
      s.id = code ∧ s.label = jp_name) ∨
    (∃ r, analyze_info code jp_name info = .error code r) := by
  cases hp : info.currentPrice with
  | none => exact .inr ⟨.noPrice, by simp only [analyze_info, hp]⟩
  | some p =>
    cases he : resolve_eps info p with
    | none => exact .inr ⟨.redInk, by simp only [analyze_info, hp, he]⟩
    | some e =>
      cases hb : resolve_bps info p with
      | none =>
        simp only [analyze_info, hp, he, hb]
        split_ifs <;> exact .inr ⟨_, rfl⟩
      | some b =>
        simp only [analyze_info, hp, he, hb]
        split_ifs <;>
          first
          | exact .inr ⟨_, rfl⟩
          | exact .inl ⟨_, rfl, rfl, rfl⟩

/-- C2: for every (symbol, displayName) input and every upstream behaviour,
`analyze_stock` returns exactly one tagged result, a success or an error
record for that symbol (it never raises: it is a total function into the
tagged union); and the one unexpected exception the body can raise, the
`ZeroDivisionError` of the `upside` line at price 0, is caught and mapped
to an error carrying the stringified exception detail. -/
theorem analyze_stock_total_tagged :
    (∀ (code jp_name : String) (a1 a2 : Attempt),
      (∃ s, analyze_stock code jp_name a1 a2 = .success s ∧
        s.id = code ∧ s.label = jp_name) ∨
      (∃ r, analyze_stock code jp_name a1 a2 = .error code r)) ∧
    analyze_info "6501" "H"
        (mkFund (some 0) (some 5) none none (some 5) none none none none) =
      .error "6501" (.unknown "float division by zero") := by
  constructor
  · intro code jp_name a1 a2
    unfold analyze_stock
    cases fetch_info [a1, a2] none with
    | none => exact .inr ⟨_, rfl⟩
    | some info => exact analyze_info_shape code jp_name info
  · norm_num [analyze_info, resolve_eps, resolve_bps, mkFund]

/-- C4: Modelled from the spec (Model A is absent from the source): on
forwardEps 10, earningsGrowth 0.30, dividendYield 0.02, price 100, Model A
succeeds with capped growth 25, yield 2, multiplier 27, fair value 270 and
upside 170.0; a multiplier of exactly 1.0 is accepted while 0.99 is
rejected as `BelowMultiplierFloor`. -/
theorem modelA_growth_yield_examples :
    modelA 0 25 (mkFund (some 100) (some 10) none none none none
        (some 0.30) none (some 0.02)) = .ok ⟨10, 25, 2, 27, 270, 170⟩ ∧
    modelA 0 25 (mkFund (some 100) (some 10) none none none none
        (some 0.01) none none) = .ok ⟨10, 1, 0, 1, 10, -90⟩ ∧
    modelA 0 25 (mkFund (some 100) (some 10) none none none none
        (some 0.0099) none none) = .error .BelowMultiplierFloor := by
  refine ⟨?_, ?_, ?_⟩ <;> norm_num [modelA, mkFund]

/-- C5 counterexample: the code merges causes that the claim requires to be
distinct. A rejection for wholly absent earnings data carries the same
reason (`'Red Ink (EPS <= 0)'`) as a rejection for a negative resolved
EPS, and a rejection for absent book-value data carries the same reason
(`'Deficit (BPS <= 0)'`) as one for a negative book value. -/
theorem merged_rejection_reasons_cx :
    analyze_info "7203" "T"
        (mkFund (some 100) none none none none none none none none) =
      .error "7203" .redInk ∧
    analyze_info "7203" "T"
        (mkFund (some 100) (some (-5)) none none none none none none none) =
      .error "7203" .redInk ∧
    analyze_info "7203" "T"
        (mkFund (some 100) (some 5) none none none none none none none) =
      .error "7203" .deficit ∧
    analyze_info "7203" "T"
        (mkFund (some 100) (some 5) none none (some (-3)) none none none
          none) =
      .error "7203" .deficit :=
  ⟨rfl, rfl, rfl, rfl⟩

/-- C5 amended: a rejection caused by absent earnings data carries the same
single reason `'Red Ink (EPS <= 0)'` as one caused by a non-positive
resolved EPS, and absent book-value data carries the same single reason
`'Deficit (BPS <= 0)'` as a non-positive resolved BPS: missing data and a
non-positive value are merged per field. The reason still identifies the
failing field, and the two merged reasons are distinct from each other. -/
theorem merged_rejection_reasons (code jp_name : String) (info : Fundamentals)
    (p : ℚ) (hp : info.currentPrice = some p) :
    (resolve_eps info p = none ∨ (∃ e, resolve_eps info p = some e ∧ e ≤ 0) →
      analyze_info code jp_name info = .error code .redInk) ∧
    (∀ e, resolve_eps info p = some e → 0 < e →
      (resolve_bps info p = none ∨
        (∃ b, resolve_bps info p = some b ∧ b ≤ 0)) →
      analyze_info code jp_name info = .error code .deficit) ∧
    Reason.redInk ≠ Reason.deficit := by
  refine ⟨?_, ?_, by simp⟩
  · intro h
    rcases h with h | ⟨e, he, he0⟩
    · simp only [analyze_info, hp, h]
    · simp only [analyze_info, hp, he, if_pos he0]
  · intro e he he0 h
    rcases h with h | ⟨b, hb, hb0⟩
    · simp only [analyze_info, hp, he, if_neg (not_le.mpr he0), h]
    · simp only [analyze_info, hp, he, if_neg (not_le.mpr he0), hb,
        if_pos hb0]

/-- Witness for the amended C5 theorem at concrete inputs: one issue with
no earnings source at all, one with a negative book value. -/
theorem merged_rejection_reasons_witness :
    analyze_info "4063" "S"
        (mkFund (some 200) none none none none none none none none) =
      .error "4063" .redInk ∧
    analyze_info "4063" "S"
        (mkFund (some 200) (some 3) none none (some (-1)) none none none
          none) =
      .error "4063" .deficit := by
  constructor
  · exact (merged_rejection_reasons "4063" "S" _ 200 rfl).1 (Or.inl rfl)
  · exact (merged_rejection_reasons "4063" "S" _ 200 rfl).2.1 3 rfl
      (by norm_num) (Or.inr ⟨-1, rfl, by norm_num⟩)

/-- The collection loop (lines 279-284) is a partition: errors plus
successes account for every result. -/
lemma collect_length (rs : List AnalyzeResult) :
    (collect_errors rs).length + (collect_success rs).length = rs.length := by
  induction rs with
  | nil => rfl
  | cons a l ih =>
    cases a <;> simp [collect_errors, collect_success] <;> omega

/-- Each error-log entry is counted in exactly one cell of the tally, so
the tally cells sum to the error-log length. -/
lemma sum_tally (errs : List (String × Reason)) :
    (all_kinds.map (tally errs)).sum = errs.length := by
  induction errs with
  | nil => simp [tally, all_kinds]
  | cons e l ih =>
    rcases e with ⟨c, r⟩
    cases r <;>
      simp [all_kinds, tally, List.countP_cons, reason_kind] at ih ⊢ <;>
      omega

/-- C3: for every run over any universe, the tally counts over all
rejection kinds plus the number of successes equal the length of the
universe: exactly one result per issue, no drops, no double counting. -/
theorem run_tally_partition (oracle : String × String → Attempt × Attempt)
    (targets : List (String × String)) :
    (all_kinds.map
        (tally (collect_errors (run_pipeline oracle targets)))).sum +
      (collect_success (run_pipeline oracle targets)).length =
    targets.length := by
  rw [sum_tally, collect_length]
  simp [run_pipeline]

/-- C1: whenever the resolved EPS and BPS are strictly positive and the
price is present and positive, Model B evaluation computes
`fairValue = sqrt(22.5 * eps * bps)` and
`upsidePct = (fairValue - price) / price * 100`, succeeds when
`upsidePct ≤ 300`, and rejects with the upside-out-of-range reason when
`upsidePct > 300`. -/
theorem modelB_graham_eval (code jp_name : String) (info : Fundamentals)
    (p e b : ℚ) (hp : info.currentPrice = some p) (hp0 : 0 < p)
    (he : resolve_eps info p = some e) (he0 : 0 < e)
    (hb : resolve_bps info p = some b) (hb0 : 0 < b) :
    (((Real.sqrt (((22.5 : ℚ) * e * b : ℚ) : ℝ) - (p : ℝ)) / (p : ℝ)) *
        100 ≤ 300 →
      analyze_info code jp_name info =
        .success ⟨code, jp_name, p,
          Real.sqrt (((22.5 : ℚ) * e * b : ℚ) : ℝ),
          ((Real.sqrt (((22.5 : ℚ) * e * b : ℚ) : ℝ) - (p : ℝ)) /
            (p : ℝ)) * 100, e, b⟩) ∧
    (300 < ((Real.sqrt (((22.5 : ℚ) * e * b : ℚ) : ℝ) - (p : ℝ)) /
        (p : ℝ)) * 100 →
      analyze_info code jp_name info =
        .error code (.tooHigh
          (((Real.sqrt (((22.5 : ℚ) * e * b : ℚ) : ℝ) - (p : ℝ)) /
            (p : ℝ)) * 100))) := by
  have hrad : ¬ ((22.5 : ℚ) * e * b < 0) := by nlinarith
  constructor
  · intro hle
    simp only [analyze_info, hp, he, hb, if_neg (not_le.mpr he0),
      if_neg (not_le.mpr hb0), if_neg hrad, if_neg hp0.ne',
      if_neg (not_lt.mpr hle)]
  · intro hgt
    simp only [analyze_info, hp, he, hb, if_neg (not_le.mpr he0),
      if_neg (not_le.mpr hb0), if_neg hrad, if_neg hp0.ne', if_pos hgt]

/-- Witness for C1 at the spec's example: forwardEps 8, bookValue 50,
price 120 give fair value `sqrt 9000` (between 94.86 and 94.87, "about
94.868") and an upside between -20.95% and -20.93% ("about -20.94"),
hence a success. -/
theorem modelB_graham_eval_witness :
    analyze_info "1001" "TestCo"
        (mkFund (some 120) (some 8) none none (some 50) none none none
          none) =
      .success ⟨"1001", "TestCo", 120, Real.sqrt 9000,
        ((Real.sqrt 9000 - 120) / 120) * 100, 8, 50⟩ ∧
    (94.86 : ℝ) < Real.sqrt 9000 ∧ Real.sqrt 9000 < 94.87 ∧
    (-20.95 : ℝ) < ((Real.sqrt 9000 - 120) / 120) * 100 ∧
    ((Real.sqrt 9000 - 120) / 120) * 100 < -20.93 := by
  have hlow : (94.86 : ℝ) < Real.sqrt 9000 :=
    (Real.lt_sqrt (by norm_num)).mpr (by norm_num)
  have hhigh : Real.sqrt 9000 < 94.87 :=
    (Real.sqrt_lt' (by norm_num)).mpr (by norm_num)
  have hup : ((Real.sqrt 9000 - 120) / 120) * 100 ≤ 300 := by linarith
  have hmain := (modelB_graham_eval "1001" "TestCo"
    (mkFund (some 120) (some 8) none none (some 50) none none none none)
    120 8 50 rfl (by norm_num) rfl (by norm_num) rfl (by norm_num)).1
  push_cast at hmain
  rw [show ((22.5 : ℝ) * 8 * 50) = 9000 by norm_num] at hmain
  exact ⟨hmain hup, hlow, hhigh, by linarith, by linarith⟩

/-- On the success path the fair value is the square root of the
radicand `22.5 * eps * bps`, which the preceding guards force to be
strictly positive. -/
lemma analyze_info_success_target (code jp_name : String)
    (info : Fundamentals) (s : SuccessRec)
    (h : analyze_info code jp_name info = .success s) : 0 < s.target := by
  cases hp : info.currentPrice with
  | none => simp [analyze_info, hp] at h
  | some p =>
    cases he : resolve_eps info p with
    | none => simp [analyze_info, hp, he] at h
    | some e =>
      cases hb : resolve_bps info p with
      | none =>
        simp only [analyze_info, hp, he, hb] at h
        split_ifs at h
      | some b =>
        simp only [analyze_info, hp, he, hb] at h
        split_ifs at h with h1 h2 h3 h4 h5
        have hq : (0 : ℚ) < (22.5 : ℚ) * e * b := by
          push_neg at h1 h2
          nlinarith
        injection h with h6
        rw [← h6]
        exact Real.sqrt_pos.mpr (by exact_mod_cast hq)

/-- C6: every success carries a strictly positive fair value. -/
theorem success_fair_value_pos (code jp_name : String) (a1 a2 : Attempt)
    (s : SuccessRec) (h : analyze_stock code jp_name a1 a2 = .success s) :
    0 < s.target := by
  cases hf : fetch_info [a1, a2] none with
  | none => simp [analyze_stock, hf] at h
  | some info =>
    simp only [analyze_stock, hf] at h
    exact analyze_info_success_target code jp_name info s h

/-- The spec's Model B example issue, as fetched fundamentals. -/
def ex9000_fund : Fundamentals :=
  mkFund (some 120) (some 8) none none (some 50) none none none none

/-- The success record the example issue evaluates to. -/
noncomputable def ex9000_rec : SuccessRec :=
  ⟨"9984", "SBG", 120, Real.sqrt 9000,
   ((Real.sqrt 9000 - 120) / 120) * 100, 8, 50⟩

/-- Direct evaluation of the example issue. -/
lemma analyze_info_ex9000 :
    analyze_info "9984" "SBG" ex9000_fund = .success ex9000_rec := by
  have hhigh : Real.sqrt 9000 < 94.87 :=
    (Real.sqrt_lt' (by norm_num)).mpr (by norm_num)
  have h9 : (((22.5 : ℚ) * 8 * 50 : ℚ) : ℝ) = 9000 := by norm_num
  norm_num [analyze_info, ex9000_fund, ex9000_rec, mkFund, resolve_eps,
    resolve_bps, h9]
  intro hc
  exact absurd hc (by push_neg; linarith)

/-- Witness for C6: the example issue succeeds and its fair value
`sqrt 9000` is strictly positive. -/
theorem success_fair_value_pos_witness : (0 : ℝ) < ex9000_rec.target := by
  refine success_fair_value_pos "9984" "SBG" (.got (some ex9000_fund))
    (.got (some ex9000_fund)) ex9000_rec ?_
  have hf : fetch_info
      [Attempt.got (some ex9000_fund), Attempt.got (some ex9000_fund)]
      none = some ex9000_fund := rfl
  simp only [analyze_stock, hf]
  exact analyze_info_ex9000

/-- Inserting `a` into a list leaves the sub-sequence of any fixed `diff`
value unchanged except for `a` itself, which lands in front of it: every
element `orderedInsert` walks past has a strictly larger `diff` than `a`. -/
lemma filter_orderedInsert (c : ℝ) (a : SuccessRec) (l : List SuccessRec) :
    (List.orderedInsert rank_rel a l).filter (fun s => decide (s.diff = c)) =
      if a.diff = c then
        a :: l.filter (fun s => decide (s.diff = c))
      else l.filter (fun s => decide (s.diff = c)) := by
  induction l with
  | nil =>
    by_cases h : a.diff = c <;> simp [List.orderedInsert, h]
  | cons b t ih =>
    by_cases hr : rank_rel a b
    · rw [List.orderedInsert_of_le rank_rel t hr]
      by_cases h : a.diff = c <;> by_cases hb2 : b.diff = c <;>
        simp [List.filter_cons, h, hb2]
    · have hins : List.orderedInsert rank_rel a (b :: t) =
          b :: List.orderedInsert rank_rel a t := by
        rw [List.orderedInsert, if_neg hr]
      rw [hins]
      by_cases h : a.diff = c
      · have hb2 : ¬ b.diff = c := by
          intro hbc
          exact hr (le_of_eq (hbc.trans h.symm))
        simp [List.filter_cons, h, hb2, ih]
      · by_cases hb2 : b.diff = c <;> simp [List.filter_cons, h, hb2, ih]

/-- Stability of the ranking step: for each fixed `diff` value, the
sub-sequence of elements carrying that value is preserved. -/
lemma filter_sorted_data (c : ℝ) (l : List SuccessRec) :
    (sorted_data l).filter (fun s => decide (s.diff = c)) =
      l.filter (fun s => decide (s.diff = c)) := by
  induction l with
  | nil => rfl
  | cons a t ih =>
    show (List.orderedInsert rank_rel a
        (List.insertionSort rank_rel t)).filter _ = _
    rw [filter_orderedInsert]
    by_cases h : a.diff = c <;>
      simp only [sorted_data] at ih <;>
      simp [List.filter_cons, h, ih]

/-- Example ranking inputs with upside values 5, -3, 5, 100 (§8 of the
spec); the two 5-valued entries are distinguished by their ids. -/
def exA : SuccessRec := ⟨"A", "a", 0, 0, 5, 0, 0⟩

/-- Second example entry, upside -3. -/
def exB : SuccessRec := ⟨"B", "b", 0, 0, -3, 0, 0⟩

/-- Third example entry, the second upside-5 element. -/
def exC : SuccessRec := ⟨"C", "c", 0, 0, 5, 0, 0⟩

/-- Fourth example entry, upside 100. -/
def exD : SuccessRec := ⟨"D", "d", 0, 0, 100, 0, 0⟩

/-- C7: the ranking step sorts every success list by upside descending,
permutes it (drops and duplicates nothing), and is stable: the
sub-sequence of entries at each fixed upside value is preserved. On the
example list with upsides [5, -3, 5, 100] the output order is
[100, 5, 5, -3] with the two 5-valued entries in input order. -/
theorem ranker_sorted_stable :
    (∀ l : List SuccessRec,
      List.Sorted rank_rel (sorted_data l) ∧
      List.Perm (sorted_data l) l ∧
      (∀ c : ℝ, (sorted_data l).filter (fun s => decide (s.diff = c)) =
        l.filter (fun s => decide (s.diff = c)))) ∧
    sorted_data [exA, exB, exC, exD] = [exD, exA, exC, exB] := by
  refine ⟨fun l => ⟨List.sorted_insertionSort rank_rel l,
    List.perm_insertionSort rank_rel l, fun c => filter_sorted_data c l⟩, ?_⟩
  norm_num [sorted_data, List.insertionSort, List.orderedInsert, rank_rel,
    exA, exB, exC, exD]

/-- C8 counterexample: an upstream that twice returns a non-empty response
without a usable price field exhausts both attempts, yet the result is the
missing-price rejection (`'No Price'`), not `'Fetch Failed'` as the claim
requires: the loop keeps the last returned dictionary, so `info` is not
`None` after the loop. -/
theorem fetch_priceless_cx :
    analyze_stock "6501" "H"
        (.got (some (mkFund none (some 5) none none none none none none
          none)))
        (.got (some (mkFund none (some 5) none none none none none none
          none))) =
      .error "6501" .noPrice ∧
    Reason.noPrice ≠ Reason.fetchFailed := by
  exact ⟨rfl, by simp⟩

/-- C8 amended: if every attempt raises or returns `None` (so that `info`
is still `None` after the loop), the two-attempt fetch yields the
`'Fetch Failed'` rejection and no exception escapes; an attempt that
returns a non-empty response without a usable price instead leaves the
run on the missing-price path. -/
theorem fetch_failed_on_empty_attempts (code jp_name : String)
    (a1 a2 : Attempt) (h1 : a1 = .exn ∨ a1 = .got none)
    (h2 : a2 = .exn ∨ a2 = .got none) :
    analyze_stock code jp_name a1 a2 = .error code .fetchFailed := by
  rcases h1 with rfl | rfl <;> rcases h2 with rfl | rfl <;> rfl

/-- Witness for the amended C8 theorem: both attempts raise. -/
theorem fetch_failed_on_empty_attempts_witness :
    analyze_stock "8035" "TEL" .exn .exn = .error "8035" .fetchFailed :=
  fetch_failed_on_empty_attempts "8035" "TEL" .exn .exn (Or.inl rfl)
    (Or.inl rfl)

/-- A listing table whose columns are found but none of whose rows passes
the 4-digit numeric code filter. -/
def tbl_no_rows : Table := ⟨["銘柄コード", "銘柄名"], ["ABCD"], ["Alpha"]⟩

/-- C9 counterexample: with the table and columns located but zero rows
surviving the code-format filter, `fetch_target_list` returns the empty
list instead of exiting; the run then finishes on the normal
`sys.exit(0)` path (`noData`), not a fatal non-zero exit. -/
theorem empty_filter_not_fatal_cx :
    fetch_target_list [tbl_no_rows] = .ok [] ∧
    main_run [tbl_no_rows] (fun _ => (.exn, .exn)) = .noData ∧
    MainOutcome.noData ≠ MainOutcome.fatalUniverse := by
  have h : fetch_target_list [tbl_no_rows] = .ok [] := by decide
  refine ⟨h, ?_, by simp⟩
  simp [main_run, h, run_pipeline, collect_success]

/-- C9 amended: a run whose universe fetch finds the table and columns but
filters every row down to the empty list does not exit non-zero: it
proceeds with the empty universe and terminates on the normal
zero-result path. -/
theorem empty_filter_continues (dfs : List Table)
    (oracle : String × String → Attempt × Attempt)
    (h : fetch_target_list dfs = .ok []) :
    main_run dfs oracle = .noData := by
  simp [main_run, h, run_pipeline, collect_success]

/-- Witness for the amended C9 theorem at the concrete empty-filter
table. -/
theorem empty_filter_continues_witness :
    main_run [tbl_no_rows] (fun _ => (.exn, .exn)) = .noData :=
  empty_filter_continues [tbl_no_rows] (fun _ => (.exn, .exn)) (by decide)

/-- A listing table with one surviving 4-digit row. -/
def tbl_one_row : Table := ⟨["銘柄コード", "銘柄名"], ["1001"], ["Alpha"]⟩

/-- C10: when the universe fetch succeeds but no issue evaluates to a
success, the driver takes the `sys.exit(0)` path: it terminates normally
without sorting, without building the report and without calling the
publisher (outcome `noData`, not `publish`). -/
theorem no_success_exits_zero (dfs : List Table)
    (oracle : String × String → Attempt × Attempt)
    (targets : List (String × String))
    (hf : fetch_target_list dfs = .ok targets)
    (hs : collect_success (run_pipeline oracle targets) = []) :
    main_run dfs oracle = .noData := by
  simp [main_run, hf, hs]

/-- Witness for C10: a one-issue universe whose upstream always raises
produces only a `'Fetch Failed'` rejection, and the run ends on the
normal zero-exit path. -/
theorem no_success_exits_zero_witness :
    main_run [tbl_one_row] (fun _ => (.exn, .exn)) = .noData :=
  no_success_exits_zero [tbl_one_row] (fun _ => (.exn, .exn))
    [("1001", "Alpha")]
    (by decide)
    (by
      have h : analyze_stock "1001" "Alpha" .exn .exn =
          .error "1001" .fetchFailed := rfl
      simp [run_pipeline, collect_success, h])
